import Mathlib

/-!
Shallow embedding of the mosquitto-based MQTT test-harness agent
(`uat/custom-components/client-mosquitto-c`): the pending-request table of
`MqttConnection`, the session start/disconnect flows with their TLS temp-file
slots, the property conversions, the connection registry of `MqttLib`, and the
request handlers of `GRPCControlServer`.

Modelling conventions:
- C++ `std::unordered_map<int, V>` is an association list `List (Int × V)`
  whose update/erase operations act on the key (all occurrences), matching the
  unique-key semantics of the map.
- Exceptions (`MqttException`) become `Except MqttException _` results; a
  function that can both mutate state and throw returns the state reached at
  the throw point together with the `Except` value.
- Source strings containing an apostrophe character are reproduced with the
  apostrophe dropped (for example "couldnt subscribe"), as the apostrophe
  cannot appear in this development; no claim depends on those characters.
- Outcomes of external mosquitto library calls (return codes, assigned message
  ids, callback arrival) are inputs of the model, supplied by environment
  structures.
-/

namespace MosquittoClient

/-- MqttException from MqttException.h: a message and a native error code. -/
structure MqttException where
  message : String
  code : Int
deriving DecidableEq, Repr

/-- One MQTT v5 property of a mosquitto property list, restricted to the
shapes the source reads or writes (identifier plus payload). -/
inductive MosqProp where
  | reasonString (s : String)
  | userProperty (key value : String)
  | byteProp (id : Nat) (value : Nat)
  | otherProp (id : Nat)
deriving DecidableEq, Repr

/-- Result delivered by a mosquitto callback, from class AsyncResult in
MqttConnection.cpp: return code, connect flags, deep-copied property list,
message id and granted-QoS array. -/
structure AsyncResult where
  rc : Int
  flags : Int
  props : List MosqProp
  mid : Int
  granted_qos : List Int
deriving DecidableEq, Repr

/-- PendingRequest from MqttConnection.cpp: m_valid flag plus the promise,
modelled as the optional submitted result. `m_valid` starts true and is set
false only by `submitResult`. -/
structure PendingRequest where
  m_valid : Bool
  result : Option AsyncResult
deriving DecidableEq, Repr

/-- A freshly constructed PendingRequest: valid, promise unfulfilled. -/
def PendingRequest.fresh : PendingRequest := ⟨true, none⟩

/-- The per-session pending-request table m_requests :
std::unordered_map<int, PendingRequest*>. -/
abbrev RequestTable := List (Int × PendingRequest)

/-- MqttConnection::createPendingRequestLocked: deletes any old entry for the
request id and inserts a fresh PendingRequest under that id. -/
def createPendingRequestLocked (t : RequestTable) (request_id : Int) : RequestTable :=
  (request_id, PendingRequest.fresh) :: t.filter (fun e => e.1 ≠ request_id)

/-- Lookup of m_requests.find(request_id): the entry under the key, if any
(keys of the map are unique). -/
def lookupRequest : RequestTable → Int → Option PendingRequest
  | [], _ => none
  | e :: rest, request_id =>
    if e.1 = request_id then some e.2 else lookupRequest rest request_id

/-- MqttConnection::getValidPendingRequestLocked: the entry for the id, but
only when present and still valid. -/
def getValidPendingRequestLocked (t : RequestTable) (request_id : Int) : Option PendingRequest :=
  match lookupRequest t request_id with
  | some r => if r.m_valid then some r else none
  | none => none

/-- PendingRequest::submitResult applied to the table entry of the id: stores
the result in the promise and clears m_valid. -/
def submitResult (t : RequestTable) (request_id : Int) (res : AsyncResult) : RequestTable :=
  t.map (fun e => if e.1 = request_id then (e.1, ⟨false, some res⟩) else e)

/-- MqttConnection::removePendingRequestLocked: deletes and erases the entry. -/
def removePendingRequestLocked (t : RequestTable) (request_id : Int) : RequestTable :=
  t.filter (fun e => e.1 ≠ request_id)

/-- The common callback step (onConnect / onDisconnect / onSubscribe /
onPublish / onUnsubscribe): look up a still-valid pending request for the key
and, only if one is found, submit the freshly built result into it. -/
def callbackStep (t : RequestTable) (request_id : Int) (res : AsyncResult) : RequestTable :=
  match getValidPendingRequestLocked t request_id with
  | some _ => submitResult t request_id res
  | none => t

/-- The table state at the moment a session operation returns to its caller
after its `waitForResult` timed out: the operation had created the pending
request; `PendingRequest::waitForResult` then threw
MqttException("Operation timedout", -1), which skips the
`removePendingRequestUnlocked` call that follows the wait, and no code on this
path touches m_valid. -/
def opTimeoutExit (t : RequestTable) (request_id : Int) : RequestTable × MqttException :=
  (createPendingRequestLocked t request_id, ⟨"Operation timedout", -1⟩)

/-- CONNECT_REQUEST_ID from MqttConnection.cpp line 26. -/
def CONNECT_REQUEST_ID : Int := 1024 * 64 + 1

/-- DISCONNECT_REQUEST_ID from MqttConnection.cpp line 27. -/
def DISCONNECT_REQUEST_ID : Int := 1024 * 64 + 2

/-- mqtt_protocol.h identifier of the REQUEST_RESPONSE_INFORMATION property. -/
def MQTT_PROP_REQUEST_RESPONSE_INFORMATION : Nat := 25

/-- MqttConnection::convertUserProperties: for a v5 session each (key, value)
pair is appended to the property list as a user property, in request order;
for v3.1.1 the pairs are dropped with a warn log. -/
def convertUserProperties (v5 : Bool) (user_properties : List (String × String))
    (conn_properties : List MosqProp) : List MosqProp :=
  if v5 then
    conn_properties ++ user_properties.map (fun kv => MosqProp.userProperty kv.1 kv.2)
  else
    conn_properties

/-- The state of one MqttConnection: protocol flag, closing/connected flags,
in-memory TLS material, CONNECT property list, the stored
request-response-information holder, the client handle (as presence flag),
the three TLS temp-file slots (empty string = empty slot, as in the source)
and the pending-request table. -/
structure SessionState where
  m_v5 : Bool
  m_is_closing : Bool
  m_is_connected : Bool
  m_ca : String
  m_cert : String
  m_key : String
  m_conn_properties : List MosqProp
  m_request_response_information : Option Bool
  m_mosq : Bool
  m_ca_file : String
  m_cert_file : String
  m_key_file : String
  m_requests : RequestTable
deriving DecidableEq, Repr

/-- The MqttConnection constructor (MqttConnection.cpp lines 97-125): copies
the TLS material strings when the pointers are non-null, converts the CONNECT
user properties, and allocates the request-response-information holder with
`new bool(rri)` — a C++ initialiser that converts the rri POINTER to bool, so
whenever a value is supplied the holder is initialised to true, whatever the
pointed-to boolean was. -/
def mkMqttConnection (ca cert key : Option String) (v5 : Bool)
    (user_properties : List (String × String)) (rri : Option Bool) : SessionState where
  m_v5 := v5
  m_is_closing := false
  m_is_connected := false
  m_ca := ca.getD ""
  m_cert := cert.getD ""
  m_key := key.getD ""
  m_conn_properties := convertUserProperties v5 user_properties []
  m_request_response_information := rri.map (fun _ => true)
  m_mosq := false
  m_ca_file := ""
  m_cert_file := ""
  m_key_file := ""
  m_requests := []

/-- MqttConnection::destroyLocked: destroys the client handle, removes the
three temp files and clears their slots, and frees the CONNECT property
list. -/
def destroyLocked (s : SessionState) : SessionState :=
  { s with m_mosq := false, m_ca_file := "", m_cert_file := "", m_key_file := "",
           m_conn_properties := [] }

/-- Outcomes of the external mosquitto calls made by MqttConnection::start:
a return code of 0 stands for MOSQ_ERR_SUCCESS; the save fields are the temp
file name on success and none when saveToTempFile throws (its three distinct
failure messages are collapsed into one case); `connack` is the result the
connect callback delivered before the timeout, none when it did not. -/
structure StartEnv where
  new_ok : Bool
  int_option_rc : Int
  prop_add_rc : Int
  ca_save : Option String
  cert_save : Option String
  key_save : Option String
  tls_set_rc : Int
  loop_start_rc : Int
  connect_rc : Int
  connack : Option AsyncResult
deriving DecidableEq, Repr

/-- MqttConnection.cpp lines 217-243: loop start, CONNECT send, pending
request registration and the await. On the ready path the connect callback
set m_is_connected, submitted the result, and the waiter removed the entry;
on timeout `waitForResult` throws and the entry stays in the table. -/
def startLoopConnectStep (env : StartEnv) (s : SessionState) :
    SessionState × Except MqttException AsyncResult :=
  if env.loop_start_rc ≠ 0 then
    (destroyLocked s, .error ⟨"couldnt start interval library thread", env.loop_start_rc⟩)
  else if env.connect_rc ≠ 0 then
    (destroyLocked s, .error ⟨"couldnt establish MQTT connection", env.connect_rc⟩)
  else
    let s1 := { s with m_requests := createPendingRequestLocked s.m_requests CONNECT_REQUEST_ID }
    match env.connack with
    | none => (s1, .error ⟨"Operation timedout", -1⟩)
    | some res =>
      let s2 := { s1 with m_is_connected := true,
                          m_requests := callbackStep s1.m_requests CONNECT_REQUEST_ID res }
      let s3 := { s2 with
                  m_requests := removePendingRequestLocked s2.m_requests CONNECT_REQUEST_ID }
      (s3, .ok res)

/-- MqttConnection.cpp lines 190-212: when all three TLS materials are
non-empty, each is written to its own temp file in order ca, cert, key, the
in-memory string being cleared after each write, then mosquitto_tls_set is
applied; a saveToTempFile failure throws with the files already created left
as they are, while a mosquitto_tls_set failure runs destroyLocked first. -/
def startTlsStep (env : StartEnv) (s : SessionState) :
    SessionState × Except MqttException AsyncResult :=
  if s.m_ca ≠ "" ∧ s.m_cert ≠ "" ∧ s.m_key ≠ "" then
    match env.ca_save with
    | none => (s, .error ⟨"couldnt create temporary file for TLS credentials", -1⟩)
    | some ca_file =>
      let s1 := { s with m_ca_file := ca_file, m_ca := "" }
      match env.cert_save with
      | none => (s1, .error ⟨"couldnt create temporary file for TLS credentials", -1⟩)
      | some cert_file =>
        let s2 := { s1 with m_cert_file := cert_file, m_cert := "" }
        match env.key_save with
        | none => (s2, .error ⟨"couldnt create temporary file for TLS credentials", -1⟩)
        | some key_file =>
          let s3 := { s2 with m_key_file := key_file, m_key := "" }
          if env.tls_set_rc ≠ 0 then
            (destroyLocked s3, .error ⟨"couldnt set TLS credentials", env.tls_set_rc⟩)
          else
            startLoopConnectStep env s3
  else
    startLoopConnectStep env s

/-- MqttConnection.cpp lines 161-174: when the request-response-information
holder is present and the session is v5, a byte property carrying 1 for a
stored true and 0 for a stored false is appended to the CONNECT property
list; on a property-add failure the exception is thrown without
destroyLocked; for v3.1.1 the holder is ignored with a warn log. -/
def startRriStep (env : StartEnv) (s : SessionState) :
    SessionState × Except MqttException AsyncResult :=
  match s.m_request_response_information with
  | some v =>
    if s.m_v5 then
      if env.prop_add_rc = 0 then
        let value : Nat := if v then 1 else 0
        startTlsStep env
          { s with m_conn_properties := s.m_conn_properties ++
              [MosqProp.byteProp MQTT_PROP_REQUEST_RESPONSE_INFORMATION value] }
      else
        (s, .error ⟨"couldnt set request response information", env.prop_add_rc⟩)
    else
      startTlsStep env s
  | none => startTlsStep env s

/-- MqttConnection::start (MqttConnection.cpp lines 138-244): client creation,
v5 protocol option, then the request-response-information, TLS, loop/connect
and await steps in source order. The returned pair is the session state at
the exit point together with the result (the raw callback result on success,
the thrown MqttException otherwise). -/
def startRun (env : StartEnv) (s0 : SessionState) :
    SessionState × Except MqttException AsyncResult :=
  if env.new_ok = false then
    (s0, .error ⟨"couldnt initialize new connection instance", -1⟩)
  else
    let s := { s0 with m_mosq := true }
    if s.m_v5 ∧ env.int_option_rc ≠ 0 then
      (destroyLocked s, .error ⟨"couldnt set protocol version to 5.0", env.int_option_rc⟩)
    else
      startRriStep env s

/-- Outcomes of the external calls made by MqttConnection::disconnect:
the return code of mosquitto_disconnect_v5, and the result the disconnect
callback delivered before the timeout (none when it did not). -/
structure DisconnectEnv where
  disconnect_rc : Int
  ack : Option AsyncResult
deriving DecidableEq, Repr

/-- Decidable equality for Except values, needed to evaluate concrete runs. -/
instance exceptDecEq {ε α : Type} [DecidableEq ε] [DecidableEq α] :
    DecidableEq (Except ε α) := fun a b =>
  match a, b with
  | .ok x, .ok y =>
    if h : x = y then isTrue (by rw [h]) else isFalse (fun hh => by cases hh; exact h rfl)
  | .error x, .error y =>
    if h : x = y then isTrue (by rw [h]) else isFalse (fun hh => by cases hh; exact h rfl)
  | .ok _, .error _ => isFalse (fun hh => by cases hh)
  | .error _, .ok _ => isFalse (fun hh => by cases hh)

/-- Result of a disconnect call: the session state at the exit point, the
thrown exception if any, and whether a DISCONNECT was issued to the
library. -/
structure DisconnectOut where
  state : SessionState
  result : Except MqttException Unit
  issued : Bool
deriving DecidableEq, Repr

/-- MqttConnection::disconnect (MqttConnection.cpp lines 264-309): the
compare-exchange on m_is_closing makes every call after the first return at
once; otherwise, when the client exists and is connected, a DISCONNECT is
issued, a pending request is parked under DISCONNECT_REQUEST_ID and awaited;
on fulfilment the entry is removed and destroyUnlocked deletes the client and
the temp files (the disconnect callback had cleared m_is_connected). -/
def disconnectRun (env : DisconnectEnv) (s0 : SessionState) : DisconnectOut :=
  if s0.m_is_closing then
    ⟨s0, .ok (), false⟩
  else
    let s := { s0 with m_is_closing := true }
    if s.m_mosq then
      if s.m_is_connected then
        if env.disconnect_rc ≠ 0 then
          ⟨s, .error ⟨"couldnt disconnect from MQTT broker", env.disconnect_rc⟩, true⟩
        else
          let s1 := { s with
                      m_requests := createPendingRequestLocked s.m_requests DISCONNECT_REQUEST_ID }
          match env.ack with
          | none => ⟨s1, .error ⟨"Operation timedout", -1⟩, true⟩
          | some res =>
            let s2 := { s1 with m_is_connected := false,
                                m_requests := callbackStep s1.m_requests DISCONNECT_REQUEST_ID res }
            let s3 := { s2 with
                        m_requests := removePendingRequestLocked s2.m_requests DISCONNECT_REQUEST_ID }
            let s4 := destroyLocked s3
            if res.rc ≠ 0 then
              ⟨s4, .error ⟨"couldnt disconnect from MQTT broker", res.rc⟩, true⟩
            else
              ⟨s4, .ok (), true⟩
      else
        ⟨s, .ok (), false⟩
    else
      ⟨s, .ok (), false⟩

/-- The user-property pairs of a property list, in list order: the common
shape of the RX property loops, which copy MQTT_PROP_USER_PROPERTY entries
and skip every other identifier with a warn log. -/
def userPropertiesOf : List MosqProp → List (String × String)
  | [] => []
  | MosqProp.userProperty k v :: rest => (k, v) :: userPropertiesOf rest
  | _ :: rest => userPropertiesOf rest

/-- The proto MqttPublishReply: optional reason code, optional reason string,
repeated user properties. A fresh message has no field set. -/
structure MqttPublishReply where
  reasoncode : Option Int
  reasonstring : Option String
  properties : List (String × String)
deriving DecidableEq, Repr

/-- A freshly allocated MqttPublishReply. -/
def MqttPublishReply.new : MqttPublishReply := ⟨none, none, []⟩

/-- The property loop of MqttConnection::convertToPublishReply: a reason
string is stored in the reasonstring field (the last one read wins), a user
property is appended to the properties, anything else is skipped with a warn
log. -/
def convertToPublishReplyLoop (props : List MosqProp) (reply : MqttPublishReply) :
    MqttPublishReply :=
  match props with
  | [] => reply
  | MosqProp.reasonString s :: rest =>
    convertToPublishReplyLoop rest { reply with reasonstring := some s }
  | MosqProp.userProperty k v :: rest =>
    convertToPublishReplyLoop rest { reply with properties := reply.properties ++ [(k, v)] }
  | _ :: rest => convertToPublishReplyLoop rest reply

/-- MqttConnection::convertToPublishReply (MqttConnection.cpp lines 861-894):
allocates a reply, sets the reason code unconditionally, then runs the
property loop over the PUBACK property list. -/
def convertToPublishReply (reason_code : Int) (props : List MosqProp) : MqttPublishReply :=
  convertToPublishReplyLoop props { MqttPublishReply.new with reasoncode := some reason_code }

/-- The success-path reply copy of GRPCControlServer::PublishMqtt
(GRPCControlServer.cpp lines 263-272): from the reply object produced by
publish, only the reason code and the reason string are copied into the RPC
reply when set; the source carries a TODO noting that user properties are not
copied. -/
def publishMqttReplyCopy (result : MqttPublishReply) : MqttPublishReply :=
  let reply := MqttPublishReply.new
  let reply := match result.reasoncode with
    | some rc => { reply with reasoncode := some rc }
    | none => reply
  match result.reasonstring with
  | some s => { reply with reasonstring := some s }
  | none => reply

/-- The proto MqttSubscribeReply: repeated reason codes and repeated user
properties. -/
structure MqttSubscribeReply where
  reasoncodes : List Int
  properties : List (String × String)
deriving DecidableEq, Repr

/-- A freshly allocated MqttSubscribeReply. -/
def MqttSubscribeReply.new : MqttSubscribeReply := ⟨[], []⟩

/-- MqttConnection::updateMqttSubscribeReply (MqttConnection.cpp lines
1041-1069): appends every granted-qos entry to the reply reason codes, then
copies the user properties of the SUBACK/UNSUBACK property list, skipping
every other property id with a warn log. -/
def updateMqttSubscribeReply (granted_qos : List Int) (props : List MosqProp)
    (reply : MqttSubscribeReply) : MqttSubscribeReply :=
  { reply with reasoncodes := reply.reasoncodes ++ granted_qos,
               properties := reply.properties ++ userPropertiesOf props }

/-- Outcomes of the external calls made by MqttConnection::unsubscribe:
whether stateCheck passes (client present and connected; its two distinct
messages are collapsed into one case), the return code of
mosquitto_unsubscribe_multiple, and the result the unsubscribe callback
delivered before the timeout (none when it did not). -/
structure UnsubscribeEnv where
  connected : Bool
  unsubscribe_rc : Int
  ack : Option AsyncResult
deriving DecidableEq, Repr

/-- MqttConnection::unsubscribe (MqttConnection.cpp lines 426-477): after
stateCheck, issue the UNSUBSCRIBE, await the callback result; on fulfilment
with a success code, build the reply by updateMqttSubscribeReply from a
vector of filters.size() zeros — the library exposes no per-filter UNSUBACK
codes — and the UNSUBACK properties; the reply object the handler passed in
is freshly allocated. -/
def unsubscribeRun (env : UnsubscribeEnv) (filters : List String) :
    Except MqttException MqttSubscribeReply :=
  if env.connected = false then
    .error ⟨"MQTT client is not connected", -1⟩
  else if env.unsubscribe_rc ≠ 0 then
    .error ⟨"couldnt unsubscribe", env.unsubscribe_rc⟩
  else
    match env.ack with
    | none => .error ⟨"Operation timedout", -1⟩
    | some res =>
      if res.rc ≠ 0 then
        .error ⟨"couldnt unsubscribe", res.rc⟩
      else
        .ok (updateMqttSubscribeReply (List.replicate filters.length 0) res.props
              MqttSubscribeReply.new)

/-- The connection registry of MqttLib: the id counter
m_connection_id_next (initially 0) and the key set of the
m_connections map (the mapped-to connection objects play no role in the
registry claims). -/
structure Registry where
  m_connection_id_next : Int
  m_connections : List Int
deriving DecidableEq, Repr

/-- The registry of a fresh MqttLib: counter 0, no connections. -/
def Registry.init : Registry := ⟨0, []⟩

/-- The id-probing loop of MqttLib::registerConnection: repeatedly increment
the counter until an id not present in the map is found. The C++ loop is
unbounded; here it carries fuel, and conns.length + 1 fuel always suffices
since each probe either succeeds or hits one of the finitely many registered
ids (the registry invariant proved below shows the very first probe already
succeeds). -/
def probeConnectionId (conns : List Int) : Int → Nat → Int
  | next, 0 => next + 1
  | next, fuel + 1 =>
    if next + 1 ∈ conns then probeConnectionId conns (next + 1) fuel else next + 1

/-- MqttLib::registerConnection (MqttLib.cpp lines 38-54): probe for a free
id starting from the counter, insert the connection under it, leave the
counter at the returned id. -/
def registerConnection (r : Registry) : Registry × Int :=
  let id := probeConnectionId r.m_connections r.m_connection_id_next (r.m_connections.length + 1)
  (⟨id, id :: r.m_connections⟩, id)

/-- MqttLib::getConnection: whether the map holds the id. -/
def getConnection (r : Registry) (connection_id : Int) : Bool :=
  decide (connection_id ∈ r.m_connections)

/-- MqttLib::unregisterConnection (MqttLib.cpp lines 68-79): erase and return
the entry when present, report absence otherwise. -/
def unregisterConnection (r : Registry) (connection_id : Int) : Registry × Bool :=
  if connection_id ∈ r.m_connections then
    ({ r with m_connections := r.m_connections.filter (fun i => i ≠ connection_id) }, true)
  else
    (r, false)

/-- A registry operation of one agent process: a registerConnection call or
an unregisterConnection call for some id. -/
inductive RegOp where
  | register
  | unregister (connection_id : Int)
deriving DecidableEq, Repr

/-- Runs a sequence of registry operations, collecting in order the ids the
registerConnection calls returned. -/
def runRegOps : List RegOp → Registry → Registry × List Int
  | [], r => (r, [])
  | RegOp.register :: ops, r =>
    let (r1, id) := registerConnection r
    let (r2, ids) := runRegOps ops r1
    (r2, id :: ids)
  | RegOp.unregister i :: ops, r =>
    let (r2, ids) := runRegOps ops (unregisterConnection r i).1
    (r2, ids)

/-- gRPC status of a control-endpoint handler. -/
inductive GrpcStatus where
  | OK
  | INVALID_ARGUMENT (msg : String)
  | NOT_FOUND (msg : String)
  | INTERNAL (msg : String)
deriving DecidableEq, Repr

/-- GRPCControlServer::CloseMqttConnection (GRPCControlServer.cpp lines
186-216): validate timeout and reason, unregister the connection id —
returning NOT_FOUND when absent — and only then run disconnect on the
removed connection; a disconnect exception (the environment input) yields
INTERNAL with its message. -/
def CloseMqttConnection (disconnect_error : Option MqttException) (reg : Registry)
    (timeout reason connection_id : Int) : Registry × GrpcStatus :=
  if timeout < 1 then
    (reg, .INVALID_ARGUMENT "invalid timeout, must be at least 1")
  else if reason < 0 ∨ 255 < reason then
    (reg, .INVALID_ARGUMENT "invalid disconnect reason")
  else
    let out := unregisterConnection reg connection_id
    if out.2 then
      match disconnect_error with
      | some ex => (out.1, .INTERNAL ex.message)
      | none => (out.1, .OK)
    else
      (out.1, .NOT_FOUND "connection for that id doesnt found")

/-- One element of the repeated subscriptions field of MqttSubscribeRequest. -/
structure Mqtt5Subscription where
  filter : String
  qos : Int
  retainhandling : Int
  nolocal : Bool
  retainaspublished : Bool
deriving DecidableEq, Repr

/-- The fields of MqttSubscribeRequest the handler reads. -/
structure MqttSubscribeRequest where
  timeout : Int
  subscriptionid : Option Int
  subscriptions : List Mqtt5Subscription
  connectionid : Int
deriving DecidableEq, Repr

/-- How far GRPCControlServer::SubscribeMqtt gets: an INVALID_ARGUMENT or
NOT_FOUND early return, or the call into MqttConnection::subscribe with the
validated arguments. -/
inductive SubscribeHandlerStep where
  | INVALID_ARGUMENT (msg : String)
  | NOT_FOUND (msg : String)
  | subscribeCall (subscription_id : Option Int) (filters : List String)
      (qos retain_handling : Int) (no_local retain_as_published : Bool)
deriving DecidableEq, Repr

/-- Per-subscription field checks of the SubscribeMqtt loop body: empty
filter, qos range, retain-handling range, in source order. -/
def checkSubscription (s : Mqtt5Subscription) : Option String :=
  if s.filter = "" then some "empty filter"
  else if s.qos < 0 ∨ 2 < s.qos then some "invalid QoS, must be in range [0,2]"
  else if s.retainhandling < 0 ∨ 2 < s.retainhandling then
    some "invalid retainHandling, must be in range [0,2]"
  else none

/-- The SubscribeMqtt loop for index ≥ 1: field checks, then comparison with
the common values taken from index 0. The source reports a no-local mismatch
with the message "retain handling values mismatched" (copy-paste at
GRPCControlServer.cpp line 346), reproduced here as-is. On success the
filters are collected in order. -/
def subscriptionsLoopRest (common : Mqtt5Subscription) :
    List Mqtt5Subscription → Except String (List String)
  | [] => .ok []
  | s :: rest =>
    match checkSubscription s with
    | some msg => .error msg
    | none =>
      if s.qos ≠ common.qos then .error "QoS values mismatched"
      else if s.retainhandling ≠ common.retainhandling then
        .error "retain handling values mismatched"
      else if s.nolocal ≠ common.nolocal then .error "retain handling values mismatched"
      else if s.retainaspublished ≠ common.retainaspublished then
        .error "retain as published values mismatched"
      else (subscriptionsLoopRest common rest).map (fun fs => s.filter :: fs)

/-- The whole SubscribeMqtt subscription loop (GRPCControlServer.cpp lines
300-359): an empty list leaves the loop body unexecuted, the common option
values keeping their initialisers 0/0/false/false; otherwise index 0 sets the
common values and the rest are compared against them. -/
def validateSubscriptions :
    List Mqtt5Subscription → Except String (List String × Int × Int × Bool × Bool)
  | [] => .ok ([], 0, 0, false, false)
  | s0 :: rest =>
    match checkSubscription s0 with
    | some msg => .error msg
    | none =>
      match subscriptionsLoopRest s0 rest with
      | .error msg => .error msg
      | .ok fs =>
        .ok (s0.filter :: fs, s0.qos, s0.retainhandling, s0.nolocal, s0.retainaspublished)

/-- GRPCControlServer::SubscribeMqtt (GRPCControlServer.cpp lines 282-382) up
to the call into the session: timeout check, optional subscription-id range
check, the subscription loop, then the connection lookup (conn_found is the
registry outcome) and the subscribe call. There is no emptiness check on the
subscription list. -/
def SubscribeMqtt (conn_found : Bool) (req : MqttSubscribeRequest) : SubscribeHandlerStep :=
  if req.timeout < 1 then
    .INVALID_ARGUMENT "invalid timeout, must be at least 1"
  else if (match req.subscriptionid with
           | some sid => decide (sid < 1 ∨ 268435455 < sid)
           | none => false) then
    .INVALID_ARGUMENT "invalid subscription id, must be >= 1 and <= 268435455"
  else
    match validateSubscriptions req.subscriptions with
    | .error msg => .INVALID_ARGUMENT msg
    | .ok (filters, qos, rh, nl, rap) =>
      if conn_found then
        .subscribeCall req.subscriptionid filters qos rh nl rap
      else
        .NOT_FOUND "connection for that id doesnt found"

/-- Registry invariant: every registered id is at most the id counter. It
holds for the initial registry and is preserved by every operation. -/
def RegistryInv (r : Registry) : Prop :=
  ∀ i ∈ r.m_connections, i ≤ r.m_connection_id_next

/-- A session that has completed its first disconnect transition: closing,
client destroyed, temp-file slots empty. -/
def closedSession : SessionState where
  m_v5 := true
  m_is_closing := true
  m_is_connected := false
  m_ca := ""
  m_cert := ""
  m_key := ""
  m_conn_properties := []
  m_request_response_information := none
  m_mosq := false
  m_ca_file := ""
  m_cert_file := ""
  m_key_file := ""
  m_requests := []

/-- A SubscribeMqtt request carrying no subscriptions at all. -/
def emptySubscribeRequest : MqttSubscribeRequest where
  timeout := 5
  subscriptionid := none
  subscriptions := []
  connectionid := 1

/-- Whether a handler step is an INVALID_ARGUMENT return. -/
def SubscribeHandlerStep.isInvalidArg : SubscribeHandlerStep → Bool
  | SubscribeHandlerStep.INVALID_ARGUMENT _ => true
  | _ => false

/-- A v5 session constructed with all three TLS materials. -/
def tlsSession : SessionState :=
  mkMqttConnection (some "CA-PEM") (some "CERT-PEM") (some "KEY-PEM") true [] none

/-- A start environment in which every library call succeeds, the three temp
files are created, and the CONNACK never arrives before the timeout. -/
def startTimeoutEnv : StartEnv where
  new_ok := true
  int_option_rc := 0
  prop_add_rc := 0
  ca_save := some "ca.tmp"
  cert_save := some "cert.tmp"
  key_save := some "key.tmp"
  tls_set_rc := 0
  loop_start_rc := 0
  connect_rc := 0
  connack := none

/-- A connected session holding three temp files, about to disconnect. -/
def connectedTlsSession : SessionState where
  m_v5 := true
  m_is_closing := false
  m_is_connected := true
  m_ca := ""
  m_cert := ""
  m_key := ""
  m_conn_properties := []
  m_request_response_information := none
  m_mosq := true
  m_ca_file := "ca.tmp"
  m_cert_file := "cert.tmp"
  m_key_file := "key.tmp"
  m_requests := []

/-- A v5 session whose creator supplied request_response_information =
false. -/
def rriFalseSession : SessionState :=
  mkMqttConnection none none none true [] (some false)

/-- A start environment in which every call succeeds and the CONNACK
arrives. -/
def rriStartEnv : StartEnv where
  new_ok := true
  int_option_rc := 0
  prop_add_rc := 0
  ca_save := none
  cert_save := none
  key_save := none
  tls_set_rc := 0
  loop_start_rc := 0
  connect_rc := 0
  connack := some ⟨0, 0, [], 0, []⟩

/-- A PUBACK property list carrying a reason string and one user property. -/
def pubackProps : List MosqProp :=
  [MosqProp.reasonString "ok", MosqProp.userProperty "a" "1"]

/-! ## Helper lemmas -/

/-- Looking up one key is unaffected by filtering another key out of the
table. -/
theorem lookupRequest_filter_ne (t : RequestTable) (id id' : Int) (h : id ≠ id') :
    lookupRequest (t.filter (fun e => e.1 ≠ id')) id = lookupRequest t id := by
  induction t with
  | nil => rfl
  | cons e rest ih =>
    simp only [ne_eq, decide_not] at ih
    by_cases he : e.1 = id'
    · have hne : ¬(e.1 = id) := fun hh => h (by rw [← hh, ← he])
      have hd : ¬(id' = id) := fun hh => h hh.symm
      simp [List.filter_cons, lookupRequest, he, hne, hd, h, ih]
    · by_cases hid : e.1 = id
      · simp [List.filter_cons, lookupRequest, he, hid, h]
      · simp [List.filter_cons, lookupRequest, he, hid, h, ih]

/-- Creating a pending request under one id leaves the entry of a different
id untouched. -/
theorem lookupRequest_create_ne (t : RequestTable) (id id' : Int) (h : id ≠ id') :
    lookupRequest (createPendingRequestLocked t id') id = lookupRequest t id := by
  have hd : ¬(id' = id) := fun hh => h hh.symm
  unfold createPendingRequestLocked
  rw [lookupRequest, if_neg hd]
  exact lookupRequest_filter_ne t id id' h

/-! ## C9 -/

/-- C9: the reserved CONNECT (65537) and DISCONNECT (65538) request ids are
both strictly above 65535, so a pending-request table entry keyed by a 16-bit
broker-assigned message id m never collides with the CONNECT or DISCONNECT
entry of the same session: creating the entry for m leaves both reserved
entries unchanged. -/
theorem reserved_request_ids_no_collision (t : RequestTable) (m : Int)
    (h0 : 0 ≤ m) (h1 : m ≤ 65535) :
    65535 < CONNECT_REQUEST_ID ∧ 65535 < DISCONNECT_REQUEST_ID ∧
    m ≠ CONNECT_REQUEST_ID ∧ m ≠ DISCONNECT_REQUEST_ID ∧
    lookupRequest (createPendingRequestLocked t m) CONNECT_REQUEST_ID =
      lookupRequest t CONNECT_REQUEST_ID ∧
    lookupRequest (createPendingRequestLocked t m) DISCONNECT_REQUEST_ID =
      lookupRequest t DISCONNECT_REQUEST_ID := by
  have hc : m ≠ CONNECT_REQUEST_ID := by
    simp only [CONNECT_REQUEST_ID]; omega
  have hd : m ≠ DISCONNECT_REQUEST_ID := by
    simp only [DISCONNECT_REQUEST_ID]; omega
  refine ⟨by simp [CONNECT_REQUEST_ID], by simp [DISCONNECT_REQUEST_ID], hc, hd, ?_, ?_⟩
  · exact lookupRequest_create_ne t CONNECT_REQUEST_ID m (fun hh => hc hh.symm)
  · exact lookupRequest_create_ne t DISCONNECT_REQUEST_ID m (fun hh => hd hh.symm)

/-- C9 witness: the theorem applied to the empty table and message id 3. -/
theorem reserved_request_ids_no_collision_witness :
    0 ≤ (3 : Int) ∧ (3 : Int) ≤ 65535 ∧
    (65535 < CONNECT_REQUEST_ID ∧ 65535 < DISCONNECT_REQUEST_ID ∧
     (3 : Int) ≠ CONNECT_REQUEST_ID ∧ (3 : Int) ≠ DISCONNECT_REQUEST_ID ∧
     lookupRequest (createPendingRequestLocked [] 3) CONNECT_REQUEST_ID =
       lookupRequest [] CONNECT_REQUEST_ID ∧
     lookupRequest (createPendingRequestLocked [] 3) DISCONNECT_REQUEST_ID =
       lookupRequest [] DISCONNECT_REQUEST_ID) :=
  ⟨by decide, by decide, reserved_request_ids_no_collision [] 3 (by decide) (by decide)⟩

/-! ## C7 -/

/-- When the first candidate id is free, the probe loop returns it at once. -/
theorem probeConnectionId_first_free (conns : List Int) (next : Int) (fuel : Nat)
    (h : next + 1 ∉ conns) : probeConnectionId conns next (fuel + 1) = next + 1 := by
  simp [probeConnectionId, h]

/-- Under the invariant, registerConnection returns counter + 1 and advances
the counter to it. -/
theorem registerConnection_inv (r : Registry) (h : RegistryInv r) :
    registerConnection r =
      (⟨r.m_connection_id_next + 1, (r.m_connection_id_next + 1) :: r.m_connections⟩,
       r.m_connection_id_next + 1) := by
  have hfree : r.m_connection_id_next + 1 ∉ r.m_connections := by
    intro hmem
    have := h _ hmem
    omega
  unfold registerConnection
  rw [probeConnectionId_first_free _ _ _ hfree]

/-- The counter is unchanged by unregisterConnection. -/
theorem unregisterConnection_next (r : Registry) (i : Int) :
    (unregisterConnection r i).1.m_connection_id_next = r.m_connection_id_next := by
  unfold unregisterConnection
  by_cases hmem : i ∈ r.m_connections <;> simp [hmem]

/-- Every id still registered after unregisterConnection was registered
before. -/
theorem unregisterConnection_conns_sub (r : Registry) (j i : Int)
    (hj : j ∈ (unregisterConnection r i).1.m_connections) : j ∈ r.m_connections := by
  unfold unregisterConnection at hj
  by_cases hmem : i ∈ r.m_connections
  · simp only [if_pos hmem] at hj
    exact List.mem_of_mem_filter hj
  · simp only [if_neg hmem] at hj
    exact hj

/-- Trace lemma: from any registry satisfying the invariant, a run of
operations keeps the invariant, every returned id exceeds the starting
counter, and the returned ids are pairwise strictly increasing in return
order. -/
theorem runRegOps_ids_mono (ops : List RegOp) (r : Registry) (h : RegistryInv r) :
    RegistryInv (runRegOps ops r).1 ∧
    (∀ id ∈ (runRegOps ops r).2, r.m_connection_id_next < id) ∧
    List.Pairwise (· < ·) (runRegOps ops r).2 := by
  induction ops generalizing r with
  | nil => exact ⟨h, by simp [runRegOps], by simp [runRegOps]⟩
  | cons op ops ih =>
    cases op with
    | register =>
      have hreg := registerConnection_inv r h
      set r1 : Registry :=
        ⟨r.m_connection_id_next + 1, (r.m_connection_id_next + 1) :: r.m_connections⟩ with hr1
      have hnext1 : r1.m_connection_id_next = r.m_connection_id_next + 1 := rfl
      have hinv1 : RegistryInv r1 := by
        intro i hi
        rcases List.mem_cons.mp hi with hi | hi
        · rw [hi, hnext1]
        · have := h _ hi
          rw [hnext1]
          omega
      obtain ⟨hinv, hgt, hpw⟩ := ih r1 hinv1
      have hrun : runRegOps (RegOp.register :: ops) r =
          ((runRegOps ops r1).1, (r.m_connection_id_next + 1) :: (runRegOps ops r1).2) := by
        simp [runRegOps, hreg]
      refine ⟨?_, ?_, ?_⟩
      · rw [hrun]
        exact hinv
      · intro id hid
        rw [hrun] at hid
        rcases List.mem_cons.mp hid with hid | hid
        · omega
        · have := hgt _ hid
          rw [hnext1] at this
          omega
      · rw [hrun]
        refine List.pairwise_cons.mpr ⟨?_, hpw⟩
        intro id hid
        have := hgt _ hid
        rw [hnext1] at this
        omega
    | unregister i =>
      have hinv1 : RegistryInv (unregisterConnection r i).1 := by
        intro j hj
        rw [unregisterConnection_next]
        exact h _ (unregisterConnection_conns_sub r j i hj)
      obtain ⟨hinv, hgt, hpw⟩ := ih _ hinv1
      have hrun : runRegOps (RegOp.unregister i :: ops) r =
          runRegOps ops (unregisterConnection r i).1 := by
        simp [runRegOps]
      refine ⟨?_, ?_, ?_⟩
      · rw [hrun]
        exact hinv
      · intro id hid
        rw [hrun] at hid
        have := hgt _ hid
        rw [unregisterConnection_next] at this
        exact this
      · rw [hrun]
        exact hpw

/-- C7: across any sequence of register/unregister operations of one agent
process, the connection ids returned by registerConnection are strictly
increasing in the order they are returned, and no returned id is ever
returned again (ids are not recycled). -/
theorem registerConnection_ids_strictly_increasing (ops : List RegOp) :
    List.Pairwise (· < ·) (runRegOps ops Registry.init).2 ∧
    (runRegOps ops Registry.init).2.Nodup := by
  have h := runRegOps_ids_mono ops Registry.init (by intro i hi; simp [Registry.init] at hi)
  exact ⟨h.2.2, h.2.2.imp (fun hlt => ne_of_lt hlt)⟩

/-! ## C8 -/

/-- C8: disconnect is idempotent. Once the session is out of the non-closing
state (m_is_closing holds), every further disconnect call — the
compare-exchange models the concurrent case as well, since exactly one call
can win it — returns immediately: no DISCONNECT is issued, no exception is
raised, and the session state is unchanged. -/
theorem disconnect_idempotent (env : DisconnectEnv) (s : SessionState)
    (h : s.m_is_closing = true) :
    disconnectRun env s = ⟨s, Except.ok (), false⟩ := by
  simp [disconnectRun, h]

/-- C8 witness: a repeat disconnect on a closed session returns unchanged. -/
theorem disconnect_idempotent_witness :
    closedSession.m_is_closing = true ∧
    disconnectRun ⟨0, none⟩ closedSession = ⟨closedSession, Except.ok (), false⟩ :=
  ⟨rfl, disconnect_idempotent ⟨0, none⟩ closedSession rfl⟩

/-! ## C10 -/

/-- C10: CloseMqttConnection unregisters the connection before running the
MQTT disconnect, so when the disconnect step throws and the handler returns
INTERNAL, the id is already gone from the registry: a repeated
CloseMqttConnection with the same id (whatever its disconnect would do)
returns NOT_FOUND, and a getConnection-based handler no longer finds the
id. -/
theorem close_unregisters_before_disconnect (ex : MqttException)
    (repeat_error : Option MqttException) (reg : Registry)
    (timeout reason connection_id : Int)
    (hto : 1 ≤ timeout) (hr0 : 0 ≤ reason) (hr1 : reason ≤ 255)
    (hmem : connection_id ∈ reg.m_connections) :
    (CloseMqttConnection (some ex) reg timeout reason connection_id).2 =
      GrpcStatus.INTERNAL ex.message ∧
    getConnection (CloseMqttConnection (some ex) reg timeout reason connection_id).1
      connection_id = false ∧
    (CloseMqttConnection repeat_error
        (CloseMqttConnection (some ex) reg timeout reason connection_id).1
        timeout reason connection_id).2 =
      GrpcStatus.NOT_FOUND "connection for that id doesnt found" := by
  have hto' : ¬(timeout < 1) := by omega
  have hr' : ¬(reason < 0 ∨ 255 < reason) := by omega
  have hout : (CloseMqttConnection (some ex) reg timeout reason connection_id).1 =
      { reg with m_connections := reg.m_connections.filter (fun i => i ≠ connection_id) } := by
    simp [CloseMqttConnection, hto', hr', unregisterConnection, hmem]
  have hnotmem : connection_id ∉
      reg.m_connections.filter (fun i => i ≠ connection_id) := by
    intro hmem2
    have := List.of_mem_filter hmem2
    simp at this
  refine ⟨?_, ?_, ?_⟩
  · simp [CloseMqttConnection, hto', hr', unregisterConnection, hmem]
  · rw [hout]
    simp [getConnection, hnotmem]
  · rw [hout]
    simp [CloseMqttConnection, hto', hr', unregisterConnection, hnotmem]

/-- C10 witness: closing registered id 1 with a failing disconnect. -/
theorem close_unregisters_before_disconnect_witness :
    1 ≤ (5 : Int) ∧ 0 ≤ (4 : Int) ∧ (4 : Int) ≤ 255 ∧ (1 : Int) ∈ [(1 : Int)] ∧
    ((CloseMqttConnection (some ⟨"boom", 3⟩) ⟨1, [1]⟩ 5 4 1).2 =
       GrpcStatus.INTERNAL "boom" ∧
     getConnection (CloseMqttConnection (some ⟨"boom", 3⟩) ⟨1, [1]⟩ 5 4 1).1 1 = false ∧
     (CloseMqttConnection none
         (CloseMqttConnection (some ⟨"boom", 3⟩) ⟨1, [1]⟩ 5 4 1).1 5 4 1).2 =
       GrpcStatus.NOT_FOUND "connection for that id doesnt found") :=
  ⟨by decide, by decide, by decide, by decide,
   close_unregisters_before_disconnect ⟨"boom", 3⟩ none ⟨1, [1]⟩ 5 4 1
     (by decide) (by decide) (by decide) (by decide)⟩

/-! ## C6 -/

/-- C6: every successful unsubscribe with a non-empty filter list produces a
reply whose reason_codes has exactly filters.length entries, every entry 0
(success), with the UNSUBACK user properties copied into the reply. -/
theorem unsubscribe_reply_success_codes (env : UnsubscribeEnv) (filters : List String)
    (res : AsyncResult) (reply : MqttSubscribeReply)
    (hne : filters ≠ []) (hack : env.ack = some res)
    (hok : unsubscribeRun env filters = Except.ok reply) :
    reply.reasoncodes.length = filters.length ∧
    (∀ c ∈ reply.reasoncodes, c = 0) ∧
    reply.properties = userPropertiesOf res.props := by
  unfold unsubscribeRun at hok
  by_cases hc : env.connected = false
  · simp [hc] at hok
  · by_cases hrc : env.unsubscribe_rc ≠ 0
    · simp [hc, hrc] at hok
    · rw [if_neg hc, if_neg hrc, hack] at hok
      by_cases hres : res.rc ≠ 0
      · simp [hres] at hok
      · simp only [hres, if_false, ite_false, if_neg, not_false_eq_true] at hok
        have hrep : reply = updateMqttSubscribeReply (List.replicate filters.length 0)
            res.props MqttSubscribeReply.new := by
          cases hok
          rfl
        subst hrep
        refine ⟨?_, ?_, ?_⟩
        · simp [updateMqttSubscribeReply, MqttSubscribeReply.new]
        · intro c hcmem
          simp [updateMqttSubscribeReply, MqttSubscribeReply.new] at hcmem
          exact hcmem.2
        · simp [updateMqttSubscribeReply, MqttSubscribeReply.new]

/-- C6 witness: unsubscribing two filters with an UNSUBACK carrying one user
property. -/
theorem unsubscribe_reply_success_codes_witness :
    (["t/1", "t/2"] ≠ ([] : List String)) ∧
    (UnsubscribeEnv.mk true 0 (some ⟨0, 0, [MosqProp.userProperty "a" "1"], 7, []⟩)).ack =
      some ⟨0, 0, [MosqProp.userProperty "a" "1"], 7, []⟩ ∧
    unsubscribeRun (UnsubscribeEnv.mk true 0 (some ⟨0, 0, [MosqProp.userProperty "a" "1"], 7, []⟩))
      ["t/1", "t/2"] = Except.ok ⟨[0, 0], [("a", "1")]⟩ ∧
    (([0, 0] : List Int).length = (["t/1", "t/2"] : List String).length ∧
     (∀ c ∈ ([0, 0] : List Int), c = 0) ∧
     ([("a", "1")] : List (String × String)) =
       userPropertiesOf [MosqProp.userProperty "a" "1"]) :=
  ⟨by decide, rfl, rfl,
   unsubscribe_reply_success_codes
     (UnsubscribeEnv.mk true 0 (some ⟨0, 0, [MosqProp.userProperty "a" "1"], 7, []⟩))
     ["t/1", "t/2"] ⟨0, 0, [MosqProp.userProperty "a" "1"], 7, []⟩ ⟨[0, 0], [("a", "1")]⟩
     (by decide) rfl rfl⟩

/-! ## C1 -/

/-- C1 counterexample: after a subscribe whose await timed out (request id 5,
starting from an empty table), the operation has raised Timeout, but the
pending-request table entry for id 5 is still present and still valid — not
marked invalid as the claim states — and a late callback for id 5 does
find a valid PendingRequest and does change the table state. -/
theorem timeout_leaves_pending_valid_cex :
    (opTimeoutExit [] 5).2 = ⟨"Operation timedout", -1⟩ ∧
    getValidPendingRequestLocked (opTimeoutExit [] 5).1 5 = some ⟨true, none⟩ ∧
    callbackStep (opTimeoutExit [] 5).1 5 ⟨0, 0, [], 5, []⟩ ≠ (opTimeoutExit [] 5).1 := by
  refine ⟨rfl, rfl, ?_⟩
  decide

/-- C1 amended: when a session operation's await expires the operation raises
Timeout, but the pending-op table entry for its request id remains present
and valid when the operation returns; the entry is marked invalid only by a
fulfilment, so a late callback for that request id finds the valid PendingOp
and fulfils it — only after that late fulfilment does the entry read as
invalid. -/
theorem timeout_leaves_pending_valid (t : RequestTable) (request_id : Int)
    (res : AsyncResult) :
    (opTimeoutExit t request_id).2 = ⟨"Operation timedout", -1⟩ ∧
    getValidPendingRequestLocked (opTimeoutExit t request_id).1 request_id =
      some PendingRequest.fresh ∧
    callbackStep (opTimeoutExit t request_id).1 request_id res =
      submitResult (opTimeoutExit t request_id).1 request_id res ∧
    getValidPendingRequestLocked
      (callbackStep (opTimeoutExit t request_id).1 request_id res) request_id = none := by
  have hvalid : getValidPendingRequestLocked (opTimeoutExit t request_id).1 request_id =
      some PendingRequest.fresh := by
    simp [opTimeoutExit, createPendingRequestLocked, getValidPendingRequestLocked,
      lookupRequest, PendingRequest.fresh]
  refine ⟨rfl, hvalid, ?_, ?_⟩
  · simp [callbackStep, hvalid]
  · simp [callbackStep, hvalid, opTimeoutExit, createPendingRequestLocked, submitResult,
      getValidPendingRequestLocked, lookupRequest]

/-! ## C2 -/

/-- C2 counterexample: a SubscribeMqtt request with an empty subscription
list (timeout 5, known connection id) is not answered with INVALID_ARGUMENT;
the handler reaches the subscribe call into the session with an empty filter
list. -/
theorem subscribe_empty_filters_not_rejected_cex :
    SubscribeMqtt true emptySubscribeRequest =
      SubscribeHandlerStep.subscribeCall none [] 0 0 false false ∧
    (SubscribeMqtt true emptySubscribeRequest).isInvalidArg = false := by
  decide

/-- C2 amended: a SubscribeMqtt request with an empty subscription list (and
otherwise valid timeout, no subscription id) passes validation — the
per-subscription loop never runs — and the handler proceeds to the
connection lookup: NOT_FOUND when the connection id is unknown, otherwise
the subscribe call on the session with an empty filter list and the
default option values 0/0/false/false. -/
theorem subscribe_empty_filters_passes (conn_found : Bool) (req : MqttSubscribeRequest)
    (hempty : req.subscriptions = []) (htime : 1 ≤ req.timeout)
    (hsid : req.subscriptionid = none) :
    SubscribeMqtt conn_found req =
      if conn_found then SubscribeHandlerStep.subscribeCall none [] 0 0 false false
      else SubscribeHandlerStep.NOT_FOUND "connection for that id doesnt found" := by
  have ht : ¬(req.timeout < 1) := by omega
  cases conn_found <;>
    simp [SubscribeMqtt, hempty, hsid, ht, validateSubscriptions]

/-- C2 witness: the amended theorem at the concrete empty request with an
unknown connection id. -/
theorem subscribe_empty_filters_passes_witness :
    emptySubscribeRequest.subscriptions = [] ∧
    1 ≤ emptySubscribeRequest.timeout ∧
    emptySubscribeRequest.subscriptionid = none ∧
    SubscribeMqtt false emptySubscribeRequest =
      (if false then SubscribeHandlerStep.subscribeCall none [] 0 0 false false
       else SubscribeHandlerStep.NOT_FOUND "connection for that id doesnt found") :=
  ⟨rfl, by decide, rfl,
   subscribe_empty_filters_passes false emptySubscribeRequest rfl (by decide) rfl⟩

/-! ## C3 -/

/-- C3 counterexample: the CONNECT-timeout exit path of start raises Timeout
with all three TLS temp-file slots still populated — an exit path of start on
which the slots are not empty, contradicting the claim; nothing on this path
deletes the files before the session object can be destroyed. -/
theorem start_timeout_keeps_tempfiles_cex :
    (startRun startTimeoutEnv tlsSession).2 = Except.error ⟨"Operation timedout", -1⟩ ∧
    (startRun startTimeoutEnv tlsSession).1.m_ca_file = "ca.tmp" ∧
    (startRun startTimeoutEnv tlsSession).1.m_cert_file = "cert.tmp" ∧
    (startRun startTimeoutEnv tlsSession).1.m_key_file = "key.tmp" :=
  ⟨rfl, rfl, rfl, rfl⟩

/-- C3 amended: the temp-file slots are empty at construction (before start),
and they are empty on every exit that runs destroyLocked — the
protocol-option, TLS-configure, loop-start and connect-send failure exits of
start, and a disconnect that issued the DISCONNECT and saw its callback
arrive; but on the exits that skip destroyLocked (temp-file-write failure,
CONNECT-await timeout, disconnect without an issued-and-acknowledged
DISCONNECT) the slots can remain populated. -/
theorem tempfile_slots_cleanup (ca cert key : Option String) (v5 : Bool)
    (ups : List (String × String)) (rri : Option Bool)
    (env : DisconnectEnv) (s : SessionState) (res : AsyncResult)
    (hclosing : s.m_is_closing = false) (hmosq : s.m_mosq = true)
    (hconn : s.m_is_connected = true) (hrc : env.disconnect_rc = 0)
    (hack : env.ack = some res) :
    (mkMqttConnection ca cert key v5 ups rri).m_ca_file = "" ∧
    (mkMqttConnection ca cert key v5 ups rri).m_cert_file = "" ∧
    (mkMqttConnection ca cert key v5 ups rri).m_key_file = "" ∧
    (∀ st : SessionState, (destroyLocked st).m_ca_file = "" ∧
      (destroyLocked st).m_cert_file = "" ∧ (destroyLocked st).m_key_file = "") ∧
    (disconnectRun env s).state.m_ca_file = "" ∧
    (disconnectRun env s).state.m_cert_file = "" ∧
    (disconnectRun env s).state.m_key_file = "" := by
  refine ⟨rfl, rfl, rfl, fun st => ⟨rfl, rfl, rfl⟩, ?_, ?_, ?_⟩ <;>
    simp [disconnectRun, hclosing, hmosq, hconn, hrc, hack, destroyLocked,
      apply_ite DisconnectOut.state, apply_ite SessionState.m_ca_file,
      apply_ite SessionState.m_cert_file, apply_ite SessionState.m_key_file]

/-- C3 witness: the amended theorem at a connected session with populated
slots whose DISCONNECT is acknowledged. -/
theorem tempfile_slots_cleanup_witness :
    connectedTlsSession.m_is_closing = false ∧
    connectedTlsSession.m_mosq = true ∧
    connectedTlsSession.m_is_connected = true ∧
    (DisconnectEnv.mk 0 (some ⟨0, 0, [], 0, []⟩)).disconnect_rc = 0 ∧
    (DisconnectEnv.mk 0 (some ⟨0, 0, [], 0, []⟩)).ack = some ⟨0, 0, [], 0, []⟩ ∧
    ((mkMqttConnection none none none true [] none).m_ca_file = "" ∧
     (mkMqttConnection none none none true [] none).m_cert_file = "" ∧
     (mkMqttConnection none none none true [] none).m_key_file = "" ∧
     (∀ st : SessionState, (destroyLocked st).m_ca_file = "" ∧
       (destroyLocked st).m_cert_file = "" ∧ (destroyLocked st).m_key_file = "") ∧
     (disconnectRun (DisconnectEnv.mk 0 (some ⟨0, 0, [], 0, []⟩))
        connectedTlsSession).state.m_ca_file = "" ∧
     (disconnectRun (DisconnectEnv.mk 0 (some ⟨0, 0, [], 0, []⟩))
        connectedTlsSession).state.m_cert_file = "" ∧
     (disconnectRun (DisconnectEnv.mk 0 (some ⟨0, 0, [], 0, []⟩))
        connectedTlsSession).state.m_key_file = "") :=
  ⟨rfl, rfl, rfl, rfl, rfl,
   tempfile_slots_cleanup none none none true [] none
     (DisconnectEnv.mk 0 (some ⟨0, 0, [], 0, []⟩)) connectedTlsSession ⟨0, 0, [], 0, []⟩
     rfl rfl rfl rfl rfl⟩

/-! ## C4 -/

/-- C4 at the failing input: the constructor stores the supplied false as
true (the holder is initialised from the pointer, not the pointed-to value),
so start appends REQUEST_RESPONSE_INFORMATION with byte value 1, whereas the
supplied boolean false demands byte value 0. -/
theorem request_response_information_pointer_bug :
    rriFalseSession.m_request_response_information = some true ∧
    (startRun rriStartEnv rriFalseSession).1.m_conn_properties =
      [MosqProp.byteProp MQTT_PROP_REQUEST_RESPONSE_INFORMATION 1] ∧
    ¬((1 : Nat) = if false then 1 else 0) :=
  ⟨rfl, rfl, by decide⟩

/-! ## C5 -/

/-- C5 at the failing input: convertToPublishReply does put the PUBACK user
property into the intermediate reply, but the PublishMqtt handler copies only
the reason code and reason string into the RPC reply, so the reply returned
to the RPC caller carries no user properties. -/
theorem publish_reply_drops_user_properties :
    (convertToPublishReply 0 pubackProps).reasoncode = some 0 ∧
    (convertToPublishReply 0 pubackProps).reasonstring = some "ok" ∧
    (convertToPublishReply 0 pubackProps).properties = [("a", "1")] ∧
    (publishMqttReplyCopy (convertToPublishReply 0 pubackProps)).reasoncode = some 0 ∧
    (publishMqttReplyCopy (convertToPublishReply 0 pubackProps)).reasonstring = some "ok" ∧
    (publishMqttReplyCopy (convertToPublishReply 0 pubackProps)).properties = [] :=
  ⟨rfl, rfl, rfl, rfl, rfl, rfl⟩

end MosquittoClient
